import Mathlib

/-!
Verification of the personal finance ledger `chochocranci.py`.

The program persists a ledger of income/expense transactions in a JSON file
and computes monthly summaries.  We embed the backing-file state, the
transaction record, and the core operations (`load_data`, `save_data`,
`add_transaction`, `get_month_transactions`, `summarize_month`, and the
clear-all action of the interactive menu) as Lean definitions, and prove
or refute the specified properties about them.
-/

namespace Chochocranci

/-- A calendar date, as produced by `datetime.date` in the month filter. -/
structure PyDate where
  year : Nat
  month : Nat
  day : Nat
deriving DecidableEq, Repr

def isDigit (c : Char) : Bool := decide ('0' ≤ c) && decide (c ≤ '9')

def digitVal (c : Char) : Nat := c.toNat - 48

/-- Gregorian leap-year rule, as used by `datetime` for date validity. -/
def isLeap (y : Nat) : Bool := (y % 4 == 0 && y % 100 != 0) || y % 400 == 0

def daysInMonth (y m : Nat) : Nat :=
  if m == 2 then (if isLeap y then 29 else 28)
  else if m == 4 || m == 6 || m == 9 || m == 11 then 30
  else 31

/-- Fractional-second part accepted by `datetime.fromisoformat`: 3 or 6 digits. -/
def validFraction : List Char → Bool
  | [a, b, c] => isDigit a && isDigit b && isDigit c
  | [a, b, c, d, e, f] =>
      isDigit a && isDigit b && isDigit c && isDigit d && isDigit e && isDigit f
  | _ => false

/-- What may follow the seconds field: nothing, or a dot and a fraction. -/
def validAfterSeconds : List Char → Bool
  | [] => true
  | c :: frac => c == '.' && validFraction frac

/-- Time-of-day formats HH, HH:MM, HH:MM:SS with optional fraction, as accepted
by `datetime.fromisoformat` after the date part (timezone offsets are not
modelled; no input of this program carries one). -/
def validTime : List Char → Bool
  | [h1, h2] => isDigit h1 && isDigit h2 && decide (digitVal h1 * 10 + digitVal h2 ≤ 23)
  | h1 :: h2 :: c1 :: m1 :: m2 :: rest =>
      isDigit h1 && isDigit h2 && decide (digitVal h1 * 10 + digitVal h2 ≤ 23) &&
      c1 == ':' &&
      isDigit m1 && isDigit m2 && decide (digitVal m1 * 10 + digitVal m2 ≤ 59) &&
      (match rest with
       | [] => true
       | c2 :: s1 :: s2 :: rest2 =>
           c2 == ':' &&
           isDigit s1 && isDigit s2 && decide (digitVal s1 * 10 + digitVal s2 ≤ 59) &&
           validAfterSeconds rest2
       | _ => false)
  | _ => false

/-- Models `datetime.fromisoformat(s).date()` as used on lines 59 and 62 of the
source: the string must start with a YYYY-MM-DD date (year 1..9999, valid month
and day); it may stop there, or continue with a single separator character and
a valid time of day, which `.date()` then discards.  Returns `none` exactly
when the Python call raises (so the surrounding `except` fires). -/
def fromisoformatDate (s : String) : Option PyDate :=
  match s.toList with
  | y1 :: y2 :: y3 :: y4 :: c1 :: m1 :: m2 :: c2 :: d1 :: d2 :: rest =>
      if isDigit y1 && isDigit y2 && isDigit y3 && isDigit y4 &&
         c1 == '-' && c2 == '-' &&
         isDigit m1 && isDigit m2 && isDigit d1 && isDigit d2 then
        let y := ((digitVal y1 * 10 + digitVal y2) * 10 + digitVal y3) * 10 + digitVal y4
        let m := digitVal m1 * 10 + digitVal m2
        let d := digitVal d1 * 10 + digitVal d2
        if decide (1 ≤ y) && decide (1 ≤ m) && decide (m ≤ 12) &&
           decide (1 ≤ d) && decide (d ≤ daysInMonth y m) &&
           (match rest with
            | [] => true
            | _ :: t => validTime t) then
          some ⟨y, m, d⟩
        else none
      else none
  | _ => none

/-- One transaction record as built by `add_transaction` (source lines 42-49).
Amounts are modelled as exact rationals; the `float(amount)` coercion of a
numeric value is value-preserving in this model.  The `date` and `created_at`
fields are optional because a raw JSON document may omit them; records written
by `add_transaction` always set both. -/
structure Txn where
  type : String
  amount : ℚ
  category : String
  note : String
  date : Option String
  created_at : Option String
deriving DecidableEq, Repr

/-- The state of the backing file `data.json`:
`missing` - the file does not exist;
`malformed` - the file exists but `json.load` raises (truncated or corrupt);
`wrongShape` - the file is valid JSON but subscripting the parsed value with
the key transactions fails (not a dict, key absent, or value not a list);
`good txs` - the file holds a well-formed document with the given list. -/
inductive FileState
  | missing
  | malformed
  | wrongShape
  | good (txs : List Txn)
deriving DecidableEq, Repr

/-- What `load_data` returns: either a parsed document whose transactions
key holds a list, or some other parsed JSON value (`other`). -/
inductive Doc
  | transactions (txs : List Txn)
  | other
deriving DecidableEq, Repr

/-- The unhandled Python exception raised when a loaded document does not
support the subscript access on the key transactions (KeyError/TypeError). -/
inductive PyErr
  | keyError
deriving DecidableEq, Repr

/-- `load_data` (source lines 22-30): a missing file yields the empty document;
a file that fails to parse yields the empty document (after printing a
warning); otherwise the parsed JSON value is returned as-is. -/
def load_data : FileState → Doc
  | FileState.missing => Doc.transactions []
  | FileState.malformed => Doc.transactions []
  | FileState.wrongShape => Doc.other
  | FileState.good txs => Doc.transactions txs

/-- `save_data` (source lines 33-35) on the success path: the whole document
is rewritten, so the new file state is exactly the serialized ledger. -/
def save_data (txs : List Txn) : FileState := FileState.good txs

/-- Outcome of the underlying file write in `save_data`. -/
inductive WriteOutcome
  | ok
  | failAfterOpen
deriving DecidableEq, Repr

/-- `save_data` under an explicit fault model.  The source opens the file in
write mode, which truncates it before `json.dump` writes anything; if the
write fails after the open, the file is left truncated (empty or partial),
which `json.load` cannot parse - hence `malformed`.  The prior state `s` is
destroyed by the truncation in both branches. -/
def save_data_withOutcome (txs : List Txn) (w : WriteOutcome) (_prior : FileState) : FileState :=
  match w with
  | WriteOutcome.ok => save_data txs
  | WriteOutcome.failAfterOpen => FileState.malformed

/-- `add_transaction` (source lines 38-51): load the document, default the
date to today when absent, build the record (with `created_at` set to the
current timestamp `now`), append it to the transactions list and save.  The
subscript `data[transactions-key]` raises on a document of the wrong shape;
this unhandled exception is modelled as `Except.error`. -/
def add_transaction (tx_type : String) (amount : ℚ) (category note : String)
    (tx_date : Option String) (today now : String)
    (s : FileState) : Except PyErr FileState :=
  match load_data s with
  | Doc.other => Except.error PyErr.keyError
  | Doc.transactions txs =>
      let d := tx_date.getD today
      let txn : Txn :=
        { type := tx_type, amount := amount, category := category,
          note := note, date := some d, created_at := some now }
      Except.ok (save_data (txs ++ [txn]))

/-- Effective-date resolution of one transaction (source lines 58-64): try
to parse the date field (absent field or failed parse both raise and are
caught), then fall back to parsing `created_at`; `none` means the second
parse also raised, which makes the loop `continue`. -/
def resolveDate (t : Txn) : Option PyDate :=
  match t.date.bind fromisoformatDate with
  | some d => some d
  | none => t.created_at.bind fromisoformatDate

/-- The month test on line 65: the resolved date must exist and match. -/
def monthMatches (year month : Nat) (t : Txn) : Bool :=
  match resolveDate t with
  | some d => d.year == year && d.month == month
  | none => false

/-- `get_month_transactions` (source lines 54-67): load, then keep, in
insertion order, the transactions whose resolved date falls in the month. -/
def get_month_transactions (year month : Nat) (s : FileState) :
    Except PyErr (List Txn) :=
  match load_data s with
  | Doc.other => Except.error PyErr.keyError
  | Doc.transactions txs => Except.ok (txs.filter (monthMatches year month))

/-- The monthly summary record (source lines 75-80). -/
structure Summary where
  income : ℚ
  expense : ℚ
  balance : ℚ
  count : Nat
deriving DecidableEq, Repr

/-- `summarize_month` (source lines 70-80): sum the amounts of the filtered
income transactions and of the filtered expense transactions, take their
difference as the balance, and count every filtered transaction. -/
def summarize_month (year month : Nat) (s : FileState) : Except PyErr Summary :=
  match get_month_transactions year month s with
  | Except.error e => Except.error e
  | Except.ok txs =>
      let total_income :=
        (txs.filter (fun t => t.type == "income")).foldl (fun acc t => acc + t.amount) 0
      let total_expense :=
        (txs.filter (fun t => t.type == "expense")).foldl (fun acc t => acc + t.amount) 0
      Except.ok
        { income := total_income, expense := total_expense,
          balance := total_income - total_expense,
          count := txs.length }

/-- The clear-all action of the interactive menu (source line 141), reached
after the confirmation token: `save_data` of the empty document. -/
def clear_all (_s : FileState) : FileState := save_data []

/-- One caller-supplied transaction for the round-trip property: the raw
arguments passed to `add_transaction`, with an explicit date, plus the
creation timestamp the system clock supplies for that call. -/
structure TxInput where
  tx_type : String
  amount : ℚ
  category : String
  note : String
  tx_date : String
  now : String
deriving DecidableEq, Repr

/-- One `add_transaction` call made from a `TxInput`. -/
def add_input (i : TxInput) (s : FileState) : Except PyErr FileState :=
  add_transaction i.tx_type i.amount i.category i.note (some i.tx_date) i.now i.now s

/-- Appending a sequence of transactions in order; any raised error stops
the sequence. -/
def appendAll (l : List TxInput) (s : FileState) : Except PyErr FileState :=
  match l with
  | [] => Except.ok s
  | i :: rest =>
      match add_input i s with
      | Except.error e => Except.error e
      | Except.ok s2 => appendAll rest s2

/-- The record that `add_transaction` builds and persists for a `TxInput`. -/
def storedTxn (i : TxInput) : Txn :=
  { type := i.tx_type, amount := i.amount, category := i.category,
    note := i.note, date := some i.tx_date, created_at := some i.now }

/-- One physical line of the Python source, reduced to what the layout rules
look at: its indentation depth and whether its header ends with a colon and
nothing after it (so that it opens an indented block). -/
structure SrcLine where
  indent : Nat
  opensBlock : Bool
deriving DecidableEq, Repr

/-- A necessary condition for a sequence of Python lines to be accepted by
the tokenizer: a line may only be indented deeper than the line right before
it when that previous line opens a block.  A line with an inline suite (a
statement after the colon on the same line) does not open a block, so a
deeper-indented successor is an IndentationError.  Real Python checks more
(dedent targets, bracket continuations); we only need this fragment. -/
def layoutOk : List SrcLine → Bool
  | [] => true
  | [_] => true
  | a :: b :: rest => (decide (b.indent ≤ a.indent) || a.opensBlock) && layoutOk (b :: rest)

/-- Lines 54-67 of `chochocranci.py` (the body of `get_month_transactions`),
one `SrcLine` per physical line, indentation counted in tab stops:
line 54 `def get_month_transactions(year, month):` opens a block at depth 0;
55 `data = load_data()` and 56 `results = []` at depth 1;
57 the for-loop header opens a block at depth 1;
58 `try:` opens a block at depth 2;
59 the first parse at depth 3;
60 `except Exception:6` at depth 2 - its colon is followed by the statement
`6` on the same line, an inline suite, so it does NOT open a block;
61 `try:` at depth 3, indented deeper than line 60;
62 the fallback parse at depth 4;
63 `except Exception:` opens a block at depth 3;
64 `continue` at depth 4;
65 the if-header opens a block at depth 2;
66 the append at depth 3;
67 `return results` at depth 1. -/
def getMonthSrcLines : List SrcLine :=
  [⟨0, true⟩, ⟨1, false⟩, ⟨1, false⟩, ⟨1, true⟩, ⟨2, true⟩, ⟨3, false⟩,
   ⟨2, false⟩, ⟨3, true⟩, ⟨4, false⟩, ⟨3, true⟩, ⟨4, false⟩, ⟨2, true⟩,
   ⟨3, false⟩, ⟨1, false⟩]

/-- The three demo transactions of `demo_run` (source lines 156-158), with
the month fixed to 2024-03 as in the reference scenario. -/
def demoInput1 : TxInput :=
  ⟨"income", 5000000, "Gaji", "Gaji bulan ini", "2024-03-01", "2024-03-01T09:00:00"⟩

def demoInput2 : TxInput :=
  ⟨"expense", 1500000, "Sewa", "Sewa rumah", "2024-03-02", "2024-03-02T09:00:00"⟩

def demoInput3 : TxInput :=
  ⟨"expense", 300000, "Makan", "Makan dan belanja", "2024-03-05", "2024-03-05T09:00:00"⟩

/-- A sample well-formed stored transaction, used as concrete prior state. -/
def sampleTx : Txn := ⟨"income", 100, "", "", some "2024-01-01", some "2024-01-01T00:00:00"⟩

/-- A transaction with a negative amount, as `add_transaction` stores it. -/
def negTx : Txn := ⟨"expense", -1, "", "", some "2024-03-01", some "2024-03-01T00:00:00"⟩

/-- A transaction with no date field whose creation timestamp carries the
date, for the date-fallback scenario. -/
def c3tx : Txn := ⟨"income", 1, "", "", none, some "2024-05-10T10:00:00"⟩

/-- A one-transaction ledger for instantiating the additivity property. -/
def c2tx : Txn := ⟨"income", 5, "", "", some "2024-03-01", some "2024-03-01T00:00:00"⟩

section Lemmas

lemma add_input_good (i : TxInput) (txs : List Txn) :
    add_input i (FileState.good txs) = Except.ok (FileState.good (txs ++ [storedTxn i])) := rfl

lemma appendAll_good (l : List TxInput) (txs : List Txn) :
    appendAll l (FileState.good txs) = Except.ok (FileState.good (txs ++ l.map storedTxn)) := by
  induction l generalizing txs with
  | nil => simp [appendAll]
  | cons i rest ih => simp [appendAll, add_input_good, ih]

lemma length_filter_split (l : List Txn)
    (h : ∀ t ∈ l, t.type = "income" ∨ t.type = "expense") :
    l.length = (l.filter (fun t => t.type == "income")).length +
      (l.filter (fun t => t.type == "expense")).length := by
  have hne1 : (("income" : String) == "expense") = false := by decide
  have hne2 : (("expense" : String) == "income") = false := by decide
  induction l with
  | nil => simp
  | cons t ts ih =>
      have ht := h t (by simp)
      have hts : ∀ x ∈ ts, x.type = "income" ∨ x.type = "expense" :=
        fun x hx => h x (by simp [hx])
      rcases ht with h1 | h1 <;>
        simp [List.filter_cons, h1, hne1, hne2, ih hts] <;> omega

end Lemmas

/-- Claim C1: starting from a fresh store (no backing file), appending any
sequence of transactions in order via `add_transaction` and then loading
returns exactly those transactions, in order, with the stored type, amount,
category, note and date fields equal to what was appended. -/
theorem C1_round_trip (l : List TxInput) :
    (∃ s : FileState, appendAll l FileState.missing = Except.ok s ∧
      load_data s = Doc.transactions (l.map storedTxn)) ∧
    (∀ i : TxInput, (storedTxn i).type = i.tx_type ∧ (storedTxn i).amount = i.amount ∧
      (storedTxn i).category = i.category ∧ (storedTxn i).note = i.note ∧
      (storedTxn i).date = some i.tx_date) := by
  constructor
  · cases l with
    | nil => exact ⟨FileState.missing, rfl, rfl⟩
    | cons i rest =>
        refine ⟨FileState.good ((i :: rest).map storedTxn), ?_, rfl⟩
        have h1 : add_input i FileState.missing = Except.ok (FileState.good [storedTxn i]) := rfl
        calc appendAll (i :: rest) FileState.missing
            = appendAll rest (FileState.good [storedTxn i]) := by
              simp [appendAll, h1]
          _ = Except.ok (FileState.good ([storedTxn i] ++ rest.map storedTxn)) :=
              appendAll_good rest [storedTxn i]
          _ = Except.ok (FileState.good ((i :: rest).map storedTxn)) := by simp
  · intro i
    exact ⟨rfl, rfl, rfl, rfl, rfl⟩

/-- Claim C2: whenever `summarize_month` returns a summary, its balance is
the income total minus the expense total; and when every transaction of the
loaded ledger has kind income or expense, its count is the number of income
transactions of the month plus the number of expense transactions. -/
theorem C2_summary_additivity (y m : Nat) (s : FileState) (txs : List Txn) (sum : Summary)
    (hload : load_data s = Doc.transactions txs)
    (hok : summarize_month y m s = Except.ok sum)
    (hvalid : ∀ t ∈ txs, t.type = "income" ∨ t.type = "expense") :
    sum.balance = sum.income - sum.expense ∧
    sum.count =
      ((txs.filter (monthMatches y m)).filter (fun t => t.type == "income")).length +
      ((txs.filter (monthMatches y m)).filter (fun t => t.type == "expense")).length := by
  have hg : get_month_transactions y m s = Except.ok (txs.filter (monthMatches y m)) := by
    unfold get_month_transactions
    rw [hload]
  unfold summarize_month at hok
  rw [hg] at hok
  injection hok with h
  subst h
  refine ⟨rfl, ?_⟩
  exact length_filter_split _ (fun t ht => hvalid t (List.mem_of_mem_filter ht))

/-- Witness for C2 at a concrete one-transaction ledger. -/
theorem C2_summary_additivity_witness :
    (Summary.mk 5 0 5 1).balance = (Summary.mk 5 0 5 1).income - (Summary.mk 5 0 5 1).expense ∧
    (Summary.mk 5 0 5 1).count =
      (([c2tx].filter (monthMatches 2024 3)).filter (fun t => t.type == "income")).length +
      (([c2tx].filter (monthMatches 2024 3)).filter (fun t => t.type == "expense")).length := by
  refine C2_summary_additivity 2024 3 (FileState.good [c2tx]) [c2tx] (Summary.mk 5 0 5 1)
    rfl ?_ (by decide)
  have hm : monthMatches 2024 3 ⟨"income", 5, "", "", some "2024-03-01",
      some "2024-03-01T00:00:00"⟩ = true := by decide
  simp [summarize_month, get_month_transactions, load_data, List.filter, c2tx, hm]

/-- Claim C3: the month filter prefers the date field; when that is absent or
unparseable it falls back to the creation timestamp; when both fail the
transaction is excluded from every monthly bucket without error; a
transaction with no date but created at 2024-05-10T10:00:00 lands in
the (2024, 5) bucket; and the filtered result keeps insertion order. -/
theorem C3_date_resolution :
    (∀ (t : Txn) (str : String) (d : PyDate),
      t.date = some str → fromisoformatDate str = some d → resolveDate t = some d) ∧
    (∀ t : Txn, t.date.bind fromisoformatDate = none →
      resolveDate t = t.created_at.bind fromisoformatDate) ∧
    (∀ (y m : Nat) (txs : List Txn) (t : Txn), resolveDate t = none →
      t ∉ txs.filter (monthMatches y m)) ∧
    (∀ (y m : Nat) (txs : List Txn),
      get_month_transactions y m (FileState.good txs) =
        Except.ok (txs.filter (monthMatches y m)) ∧
      List.Sublist (txs.filter (monthMatches y m)) txs) ∧
    (∀ t : Txn, t.date = none → t.created_at = some "2024-05-10T10:00:00" →
      monthMatches 2024 5 t = true) := by
  refine ⟨?_, ?_, ?_, ?_, ?_⟩
  · intro t str d h1 h2
    simp [resolveDate, h1, h2]
  · intro t h
    simp [resolveDate, h]
  · intro y m txs t h
    simp [List.mem_filter, monthMatches, h]
  · intro y m txs
    exact ⟨rfl, List.filter_sublist txs⟩
  · intro t h1 h2
    have hp : fromisoformatDate "2024-05-10T10:00:00" = some ⟨2024, 5, 10⟩ := by decide
    simp [monthMatches, resolveDate, h1, h2, hp]

/-- Witness for C3: the fallback scenario evaluated on a concrete record. -/
theorem C3_date_resolution_witness : monthMatches 2024 5 c3tx = true :=
  C3_date_resolution.2.2.2.2 c3tx rfl rfl

/-- Claim C4 counterexample: `add_transaction` does not reject a negative
amount - called with amount -1 on a fresh store it persists the transaction,
leaving the file changed and holding the negative record. -/
theorem C4_counterexample :
    negTx.amount < 0 ∧
    add_transaction "expense" (-1 : ℚ) "" "" (some "2024-03-01") "2024-03-01"
        "2024-03-01T00:00:00" FileState.missing = Except.ok (FileState.good [negTx]) ∧
    FileState.good [negTx] ≠ FileState.missing := by
  refine ⟨by norm_num [negTx], rfl, fun h => FileState.noConfusion h⟩

/-- Claim C4 as amended: `add_transaction` performs no amount validation at
all - for any amount, negative included, it builds the record and persists
it; rejection is left entirely to the interactive caller, which checks only
that the input parses as a number, not its sign. -/
theorem C4_amended_persists (tx_type : String) (amount : ℚ) (category note td today now : String)
    (s : FileState) (txs : List Txn) (hload : load_data s = Doc.transactions txs) :
    add_transaction tx_type amount category note (some td) today now s =
      Except.ok (FileState.good (txs ++
        [{ type := tx_type, amount := amount, category := category, note := note,
           date := some td, created_at := some now }])) := by
  unfold add_transaction
  rw [hload]
  rfl

/-- Witness for the amended C4 at a concrete negative amount. -/
theorem C4_amended_persists_witness :
    add_transaction "expense" (-5 : ℚ) "c" "n" (some "2024-01-02") "td" "cr"
        FileState.missing =
      Except.ok (FileState.good ([] ++
        [{ type := "expense", amount := (-5 : ℚ), category := "c", note := "n",
           date := some "2024-01-02", created_at := some "cr" }])) :=
  C4_amended_persists "expense" (-5) "c" "n" "2024-01-02" "td" "cr" FileState.missing [] rfl

/-- Claim C5 counterexample: under the fault model of the direct overwrite in
`save_data`, a write that fails after the file has been opened (and hence
truncated) leaves a malformed file, not the prior one-transaction state. -/
theorem C5_counterexample :
    save_data_withOutcome [] WriteOutcome.failAfterOpen (FileState.good [sampleTx]) =
      FileState.malformed ∧
    save_data_withOutcome [] WriteOutcome.failAfterOpen (FileState.good [sampleTx]) ≠
      FileState.good [sampleTx] :=
  ⟨rfl, fun h => FileState.noConfusion h⟩

/-- Claim C5 as amended: `save_data` rewrites the file in place with no
temporary file or atomic replace - a successful write installs the new
document, and a write failing after the open leaves a truncated (malformed)
file whatever the prior state was. -/
theorem C5_amended_direct_overwrite (newTxs : List Txn) (s : FileState) :
    save_data_withOutcome newTxs WriteOutcome.ok s = FileState.good newTxs ∧
    save_data_withOutcome newTxs WriteOutcome.failAfterOpen s = FileState.malformed :=
  ⟨rfl, rfl⟩

/-- Claim C6 counterexample: on a backing file holding valid JSON that is not
an object with a transactions list, `get_month_transactions` raises an
unhandled KeyError/TypeError instead of recovering. -/
theorem C6_counterexample :
    get_month_transactions 2024 3 FileState.wrongShape = Except.error PyErr.keyError := rfl

/-- Claim C6 as amended: `load_data` itself never raises - a missing or
unparseable file both yield the empty document - but a file whose JSON is
not an object with a transactions list makes every downstream operation
(`add_transaction`, `get_month_transactions`, `summarize_month`) raise an
unhandled error. -/
theorem C6_amended_no_crash_only_in_load :
    (load_data FileState.missing = Doc.transactions [] ∧
     load_data FileState.malformed = Doc.transactions []) ∧
    (∀ y m : Nat,
      get_month_transactions y m FileState.wrongShape = Except.error PyErr.keyError ∧
      summarize_month y m FileState.wrongShape = Except.error PyErr.keyError) ∧
    (∀ (tx_type : String) (amount : ℚ) (category note today now : String) (td : Option String),
      add_transaction tx_type amount category note td today now FileState.wrongShape =
        Except.error PyErr.keyError) :=
  ⟨⟨rfl, rfl⟩, fun _ _ => ⟨rfl, rfl⟩, fun _ _ _ _ _ _ _ => rfl⟩

/-- Claim C7: from an empty store, appending income 5000000 on 2024-03-01,
expense 1500000 on 2024-03-02 and expense 300000 on 2024-03-05 and then
summarizing 2024-03 yields income 5000000, expense 1800000, balance 3200000
and count 3. -/
theorem C7_reference_scenario :
    appendAll [demoInput1, demoInput2, demoInput3] FileState.missing =
      Except.ok (FileState.good
        [storedTxn demoInput1, storedTxn demoInput2, storedTxn demoInput3]) ∧
    summarize_month 2024 3 (FileState.good
        [storedTxn demoInput1, storedTxn demoInput2, storedTxn demoInput3]) =
      Except.ok { income := 5000000, expense := 1800000, balance := 3200000, count := 3 } := by
  constructor
  · rfl
  · have h1 : monthMatches 2024 3 (storedTxn demoInput1) = true := by decide
    have h2 : monthMatches 2024 3 (storedTxn demoInput2) = true := by decide
    have h3 : monthMatches 2024 3 (storedTxn demoInput3) = true := by decide
    have e1 : ((storedTxn demoInput1).type == "income") = true := by decide
    have e2 : ((storedTxn demoInput2).type == "income") = false := by decide
    have e3 : ((storedTxn demoInput3).type == "income") = false := by decide
    have f1 : ((storedTxn demoInput1).type == "expense") = false := by decide
    have f2 : ((storedTxn demoInput2).type == "expense") = true := by decide
    have f3 : ((storedTxn demoInput3).type == "expense") = true := by decide
    have a1 : (storedTxn demoInput1).amount = 5000000 := rfl
    have a2 : (storedTxn demoInput2).amount = 1500000 := rfl
    have a3 : (storedTxn demoInput3).amount = 300000 := rfl
    simp [summarize_month, get_month_transactions, load_data, List.filter,
      h1, h2, h3, e1, e2, e3, f1, f2, f3, a1, a2, a3]
    norm_num

/-- Claim C8: loading from a missing backing file returns the empty ledger,
and this path raises nothing. -/
theorem C8_missing_file_bootstrap : load_data FileState.missing = Doc.transactions [] := rfl

/-- Claim C9: the clear-all action leaves the empty ledger after one call and
after two consecutive calls, and a subsequent load returns the empty
document, whatever the prior on-disk state. -/
theorem C9_idempotent_clear (s : FileState) :
    clear_all s = FileState.good [] ∧
    clear_all (clear_all s) = FileState.good [] ∧
    load_data (clear_all (clear_all s)) = Doc.transactions [] :=
  ⟨rfl, rfl, rfl⟩

/-- Claim C10: the source is not valid Python - lines 54-65 pass the
indentation rule up to and including line 60, but line 61 is indented deeper
than line 60, whose `except Exception:6` header carries an inline suite and
so opens no block; the tokenizer rejects the file, so no operation of the
program can run. -/
theorem C10_not_valid_python :
    layoutOk (getMonthSrcLines.take 7) = true ∧ layoutOk getMonthSrcLines = false := by
  decide

end Chochocranci
